import Mathlib

/-!
# Verification of the `simulation` crate of black-hole-laboratory

This file shallowly embeds the geodesic-integration core of the
`simulation` crate (file `src/simulation/src/lib.rs`) into Lean.
Machine `f32` values are modelled as real numbers; `u32` counters as
naturals.  The adaptive integrator `AdaptiveRK45::step`, which is
recursive with no termination guarantee in the source, is modelled with
an explicit fuel parameter returning `Option` (`none` = the recursion
did not finish within the given fuel).  Rust's `f32::clamp`, which
panics when `min > max`, is modelled by an `Option`-returning checked
clamp where the panic matters (`KerrBlackHole::new`).
-/

open Real

/-- Embeds `struct Geodesic`: position `(t, r, theta, phi)` and
four-momentum `(pt, pr, ptheta, pphi)`. -/
@[ext]
structure Geodesic where
  position : Fin 4 → ℝ
  momentum : Fin 4 → ℝ

namespace Geodesic

/-- Embeds `Geodesic::new`. -/
def new (position momentum : Fin 4 → ℝ) : Geodesic :=
  ⟨position, momentum⟩

/-- Embeds `Geodesic::radius`. -/
def radius (g : Geodesic) : ℝ := g.position 1

/-- Embeds `Geodesic::is_inside_event_horizon`. -/
def is_inside_event_horizon (g : Geodesic) (mass : ℝ) : Prop :=
  g.radius ≤ 2 * mass

noncomputable instance (g : Geodesic) (mass : ℝ) :
    Decidable (g.is_inside_event_horizon mass) :=
  inferInstanceAs (Decidable (g.radius ≤ 2 * mass))

end Geodesic

/-- Embeds `struct AdaptiveRK45`: the adaptive integrator
configuration. -/
structure AdaptiveRK45 where
  abs_tolerance : ℝ
  rel_tolerance : ℝ
  min_step : ℝ
  max_step : ℝ
  safety_factor : ℝ

namespace AdaptiveRK45

/-- Embeds `impl Default for AdaptiveRK45`. -/
noncomputable def default : AdaptiveRK45 :=
  { abs_tolerance := 1e-6
    rel_tolerance := 1e-6
    min_step := 1e-8
    max_step := 1.0
    safety_factor := 0.9 }

end AdaptiveRK45

/-- Embeds `AdaptiveRK45::add_k_to_state` (the Rust method mutates
`state` in place; here the updated state is returned). -/
def add_k_to_state (state k : Geodesic) (factor : ℝ) : Geodesic :=
  { position := fun i => state.position i + factor * k.position i
    momentum := fun i => state.momentum i + factor * k.momentum i }

/-- Embeds `AdaptiveRK45::estimate_error`: the running maximum of the
absolute componentwise differences, exactly as the `for i in 0..4`
loop accumulates it. -/
def estimate_error (y4 y5 : Geodesic) : ℝ :=
  (([0, 1, 2, 3] : List (Fin 4)).foldl
    (fun max_error i =>
      max (max max_error |y5.position i - y4.position i|)
        |y5.momentum i - y4.momentum i|) 0)

/-- Embeds `AdaptiveRK45::state_norm`: Euclidean norm over the 8 scalar
components, accumulated exactly as the `for i in 0..4` loop does. -/
noncomputable def state_norm (state : Geodesic) : ℝ :=
  Real.sqrt
    (([0, 1, 2, 3] : List (Fin 4)).foldl
      (fun norm i =>
        norm + state.position i * state.position i
          + state.momentum i * state.momentum i) 0)

/-- Stage `k1` of `AdaptiveRK45::step`. -/
def rk45_k1 (f : Geodesic → Geodesic) (s : Geodesic) : Geodesic := f s

/-- Stage `k2` of `AdaptiveRK45::step` (tableau row `a[1]`). -/
noncomputable def rk45_k2 (f : Geodesic → Geodesic) (s : Geodesic) (h : ℝ) : Geodesic :=
  f (add_k_to_state s (rk45_k1 f s) (h * (1/4)))

/-- Stage `k3` of `AdaptiveRK45::step` (tableau row `a[2]`). -/
noncomputable def rk45_k3 (f : Geodesic → Geodesic) (s : Geodesic) (h : ℝ) : Geodesic :=
  f (add_k_to_state (add_k_to_state s (rk45_k1 f s) (h * (3/32)))
      (rk45_k2 f s h) (h * (9/32)))

/-- Stage `k4` of `AdaptiveRK45::step` (tableau row `a[3]`). -/
noncomputable def rk45_k4 (f : Geodesic → Geodesic) (s : Geodesic) (h : ℝ) : Geodesic :=
  f (add_k_to_state
      (add_k_to_state
        (add_k_to_state s (rk45_k1 f s) (h * (1932/2197)))
        (rk45_k2 f s h) (h * (-7200/2197)))
      (rk45_k3 f s h) (h * (7296/2197)))

/-- Stage `k5` of `AdaptiveRK45::step` (tableau row `a[4]`). -/
noncomputable def rk45_k5 (f : Geodesic → Geodesic) (s : Geodesic) (h : ℝ) : Geodesic :=
  f (add_k_to_state
      (add_k_to_state
        (add_k_to_state
          (add_k_to_state s (rk45_k1 f s) (h * (439/216)))
          (rk45_k2 f s h) (h * (-8)))
        (rk45_k3 f s h) (h * (3680/513)))
      (rk45_k4 f s h) (h * (-845/4104)))

/-- Stage `k6` of `AdaptiveRK45::step` (tableau row `a[5]`). -/
noncomputable def rk45_k6 (f : Geodesic → Geodesic) (s : Geodesic) (h : ℝ) : Geodesic :=
  f (add_k_to_state
      (add_k_to_state
        (add_k_to_state
          (add_k_to_state
            (add_k_to_state s (rk45_k1 f s) (h * (-8/27)))
            (rk45_k2 f s h) (h * 2))
          (rk45_k3 f s h) (h * (-3544/2565)))
        (rk45_k4 f s h) (h * (1859/4104)))
      (rk45_k5 f s h) (h * (-11/40)))

/-- The 4th order solution `y4` of `AdaptiveRK45::step` (weights `b4`;
the zero-weight stages `k2`, `k6` are skipped, as in the source). -/
noncomputable def rk45_y4 (f : Geodesic → Geodesic) (s : Geodesic) (h : ℝ) : Geodesic :=
  add_k_to_state
    (add_k_to_state
      (add_k_to_state
        (add_k_to_state s (rk45_k1 f s) (h * (25/216)))
        (rk45_k3 f s h) (h * (1408/2565)))
      (rk45_k4 f s h) (h * (2197/4104)))
    (rk45_k5 f s h) (h * (-1/5))

/-- The 5th order solution `y5` of `AdaptiveRK45::step` (weights `b5`;
the zero-weight stage `k2` is skipped, as in the source). -/
noncomputable def rk45_y5 (f : Geodesic → Geodesic) (s : Geodesic) (h : ℝ) : Geodesic :=
  add_k_to_state
    (add_k_to_state
      (add_k_to_state
        (add_k_to_state
          (add_k_to_state s (rk45_k1 f s) (h * (16/135)))
          (rk45_k3 f s h) (h * (6656/12825)))
        (rk45_k4 f s h) (h * (28561/56430)))
      (rk45_k5 f s h) (h * (-9/50)))
    (rk45_k6 f s h) (h * (2/55))

/-- Embeds `AdaptiveRK45::step`, which in the source is recursive with
no termination guarantee: `fuel` bounds the recursion depth and `none`
means the recursion did not return within that depth.  The initial
`step_size.clamp(self.min_step, self.max_step)` panics in Rust when
`min_step > max_step`; that case is reached afresh on every recursive
call, so it is checked at the top of every unfolding (a panic is folded
into `none`; all theorems below assume `min_step ≤ max_step`, under
which `none` can only mean non-termination). -/
noncomputable def AdaptiveRK45.stepFuel (c : AdaptiveRK45)
    (f : Geodesic → Geodesic) (state : Geodesic) :
    ℝ → ℕ → Option (Geodesic × ℝ × ℝ)
  | _, 0 => none
  | step_size, Nat.succ fuel =>
    if c.min_step ≤ c.max_step then
      let h := max c.min_step (min c.max_step step_size)
      let y4 := rk45_y4 f state h
      let y5 := rk45_y5 f state h
      let error := estimate_error y4 y5
      let tolerance := c.abs_tolerance + c.rel_tolerance * state_norm state
      let tol_over_err := tolerance / max error 1e-14
      let new_step := h * c.safety_factor * tol_over_err ^ (0.2 : ℝ)
      let suggested_step := max c.min_step (min c.max_step new_step)
      if error ≤ tolerance then some (y5, h, suggested_step)
      else AdaptiveRK45.stepFuel c f state suggested_step fuel
    else none

/-- Rust's `f32::clamp(min, max)`: panics (here `none`) when
`min > max`, otherwise restricts the value into `[min, max]`. -/
noncomputable def f32ClampChecked (x lo hi : ℝ) : Option ℝ :=
  if lo ≤ hi then some (max lo (min hi x)) else none

/-- Two-argument arctangent, the model of `f32::atan2` (the `y.atan2 x`
of the source): the standard piecewise definition by quadrant. -/
noncomputable def atan2 (y x : ℝ) : ℝ :=
  if 0 < x then Real.arctan (y / x)
  else if x < 0 then
    (if 0 ≤ y then Real.arctan (y / x) + Real.pi
     else Real.arctan (y / x) - Real.pi)
  else
    (if 0 < y then Real.pi / 2
     else if y < 0 then -(Real.pi / 2) else 0)

/-- Embeds `struct ConservedQuantities`. -/
structure ConservedQuantities where
  energy : ℝ
  angular_momentum_z : ℝ
  carter_constant : ℝ

/-- Embeds `ConservedQuantities::from_initial_conditions`. -/
noncomputable def ConservedQuantities.from_initial_conditions
    (position momentum : Fin 4 → ℝ) (_mass spin : ℝ) : ConservedQuantities :=
  let theta := position 2
  let pt := momentum 0
  let ptheta := momentum 2
  let pphi := momentum 3
  let sin_theta := Real.sin theta
  let energy := -pt
  let angular_momentum_z := pphi
  let carter_constant := ptheta * ptheta + (Real.cos theta) ^ 2 *
    (spin * spin * (energy * energy - 1) +
      angular_momentum_z * angular_momentum_z / sin_theta ^ 2)
  { energy := energy
    angular_momentum_z := angular_momentum_z
    carter_constant := carter_constant }

/-- Embeds `struct KerrBlackHole`. -/
structure KerrBlackHole where
  mass : ℝ
  spin : ℝ

namespace KerrBlackHole

/-- Embeds `KerrBlackHole::new`: the spin is clamped by
`spin.clamp(-mass, mass)`, which panics (`none`) when `-mass > mass`,
i.e. when `mass < 0`. -/
noncomputable def new (mass spin : ℝ) : Option KerrBlackHole :=
  (f32ClampChecked spin (-mass) mass).map fun s => ⟨mass, s⟩

/-- Embeds `KerrBlackHole::schwarzschild`. -/
noncomputable def schwarzschild (mass : ℝ) : Option KerrBlackHole :=
  new mass 0

/-- Embeds `KerrBlackHole::outer_horizon`. -/
noncomputable def outer_horizon (bh : KerrBlackHole) : ℝ :=
  bh.mass + Real.sqrt (bh.mass * bh.mass - bh.spin * bh.spin)

/-- Embeds `KerrBlackHole::inner_horizon`. -/
noncomputable def inner_horizon (bh : KerrBlackHole) : ℝ :=
  bh.mass - Real.sqrt (bh.mass * bh.mass - bh.spin * bh.spin)

/-- Embeds `KerrBlackHole::ergosphere_radius`. -/
noncomputable def ergosphere_radius (bh : KerrBlackHole) (theta : ℝ) : ℝ :=
  bh.mass + Real.sqrt (bh.mass * bh.mass -
    bh.spin * bh.spin * (Real.cos theta) ^ 2)

end KerrBlackHole

-- Embeds `mod kerr_schild`.
namespace kerr_schild

/-- Embeds `kerr_schild::sigma`. -/
noncomputable def sigma (r theta spin : ℝ) : ℝ :=
  r * r + spin * spin * (Real.cos theta) ^ 2

/-- Embeds `kerr_schild::delta`. -/
def delta (r mass spin : ℝ) : ℝ :=
  r * r - 2 * mass * r + spin * spin

/-- Embeds `kerr_schild::a_function`. -/
noncomputable def a_function (r theta mass spin : ℝ) : ℝ :=
  (r * r + spin * spin) * (r * r + spin * spin) -
    spin * spin * delta r mass spin * (Real.sin theta) ^ 2

/-- Embeds `kerr_schild::metric_components`: the source zero-fills a
4×4 array and then assigns the listed entries (`g[0][1]`/`g[1][0]` only
when `|spin| > 1e-10`, and `g[1][1]` by the Kerr or the Schwarzschild
branch on the same test). -/
noncomputable def metric_components (r theta : ℝ) (bh : KerrBlackHole) :
    Fin 4 → Fin 4 → ℝ :=
  let mass := bh.mass
  let spin := bh.spin
  let sig := sigma r theta spin
  let sin_theta := Real.sin theta
  let g00 := -(1 - 2 * mass * r / sig)
  let g01 := if |spin| > 1e-10 then 2 * mass * r / sig else 0
  let g03 := -(2 * mass * r * spin * sin_theta ^ 2) / sig
  let g11 := if |spin| > 1e-10 then 1 + 2 * mass * r / sig
             else sig / (sig - 2 * mass * r)
  let g13 := -spin * sin_theta ^ 2 * (1 + 2 * mass * r / sig)
  let g22 := sig
  let g33 := sin_theta ^ 2 *
    (sig + spin * spin * sin_theta ^ 2 * (1 + 2 * mass * r / sig))
  ![![g00, g01, 0, g03],
    ![g01, g11, 0, g13],
    ![0, 0, g22, 0],
    ![g03, g13, 0, g33]]

/-- Embeds `kerr_schild::is_inside_horizon`. -/
def is_inside_horizon (r : ℝ) (bh : KerrBlackHole) : Prop :=
  r ≤ bh.outer_horizon

noncomputable instance (r : ℝ) (bh : KerrBlackHole) :
    Decidable (is_inside_horizon r bh) :=
  inferInstanceAs (Decidable (r ≤ bh.outer_horizon))

/-- Embeds `kerr_schild::is_in_ergosphere`. -/
def is_in_ergosphere (r theta : ℝ) (bh : KerrBlackHole) : Prop :=
  r ≤ bh.ergosphere_radius theta ∧ r > bh.outer_horizon

end kerr_schild

-- Embeds `mod schwarzschild`.
namespace schwarzschild

/-- Embeds `schwarzschild::g_tt`. -/
noncomputable def g_tt (mass r : ℝ) : ℝ := -(1 - (2 * mass) / r)

/-- Embeds `schwarzschild::g_rr`. -/
noncomputable def g_rr (mass r : ℝ) : ℝ := 1 / (1 - (2 * mass) / r)

/-- Embeds `schwarzschild::g_theta_theta`. -/
def g_theta_theta (r : ℝ) : ℝ := r * r

/-- Embeds `schwarzschild::g_phi_phi`. -/
noncomputable def g_phi_phi (r theta : ℝ) : ℝ :=
  r * r * (Real.sin theta) ^ 2

/-- Embeds `schwarzschild::is_inside_event_horizon`. -/
def is_inside_event_horizon (mass r : ℝ) : Prop := r ≤ 2 * mass

noncomputable instance (mass r : ℝ) :
    Decidable (is_inside_event_horizon mass r) :=
  inferInstanceAs (Decidable (r ≤ 2 * mass))

/-- Embeds `schwarzschild::time_dilation_factor`. -/
noncomputable def time_dilation_factor (mass r : ℝ) : ℝ :=
  if is_inside_event_horizon mass r then 0
  else Real.sqrt (1 - (2 * mass) / r)

end schwarzschild

/-- Embeds `struct KerrLightRay`. -/
structure KerrLightRay where
  geodesic : Geodesic
  conserved : ConservedQuantities
  black_hole : KerrBlackHole
  integrator : AdaptiveRK45
  step_size : ℝ
  max_steps : ℕ
  step_count : ℕ

namespace KerrLightRay

/-- Embeds `KerrLightRay::new`. -/
noncomputable def new (camera_pos ray_dir : Fin 3 → ℝ)
    (black_hole : KerrBlackHole) : KerrLightRay :=
  let r := Real.sqrt (camera_pos 0 * camera_pos 0 +
    camera_pos 1 * camera_pos 1 + camera_pos 2 * camera_pos 2)
  let theta := Real.arccos (camera_pos 2 / r)
  let phi := atan2 (camera_pos 1) (camera_pos 0)
  let position : Fin 4 → ℝ := ![0, r, theta, phi]
  let momentum : Fin 4 → ℝ := ![1, ray_dir 0, ray_dir 1, ray_dir 2]
  let geodesic := Geodesic.new position momentum
  let conserved := ConservedQuantities.from_initial_conditions
    position momentum black_hole.mass black_hole.spin
  { geodesic := geodesic
    conserved := conserved
    black_hole := black_hole
    integrator := AdaptiveRK45.default
    step_size := 0.1
    max_steps := 10000
    step_count := 0 }

/-- Embeds `KerrLightRay::compute_kerr_derivatives`. -/
noncomputable def compute_kerr_derivatives (ray : KerrLightRay)
    (state : Geodesic) : Geodesic :=
  let r := state.position 1
  let theta := state.position 2
  let e := ray.conserved.energy
  let lz := ray.conserved.angular_momentum_z
  let q := ray.conserved.carter_constant
  let mass := ray.black_hole.mass
  let spin := ray.black_hole.spin
  let sigma := kerr_schild.sigma r theta spin
  let delta := kerr_schild.delta r mass spin
  let sin_theta := Real.sin theta
  let cos_theta := Real.cos theta
  let dt_dlambda := (1 / delta) * ((r * r + spin * spin) * e - spin * lz) *
    (r * r + spin * spin) / sigma + spin * e * sin_theta ^ 2
  let term1 := e * (r * r + spin * spin) - spin * lz
  let term2 := lz - spin * e
  let radial_potential := term1 * term1 - delta * (term2 * term2 + q)
  let dr_dlambda :=
    if 0 ≤ radial_potential then Real.sqrt radial_potential / sigma else 0
  let theta_potential := q - cos_theta ^ 2 *
    (spin * spin * (0 - e * e) + lz * lz / sin_theta ^ 2)
  let dtheta_dlambda :=
    if 0 ≤ theta_potential then Real.sqrt theta_potential / sigma else 0
  let dphi_dlambda := (1 / delta) * (-spin * e + lz / sin_theta ^ 2) +
    spin * e / sigma
  let pos_deriv : Fin 4 → ℝ :=
    ![dt_dlambda, dr_dlambda, dtheta_dlambda, dphi_dlambda]
  let mom_deriv := pos_deriv
  Geodesic.new pos_deriv mom_deriv

/-- Embeds `KerrLightRay::step`.  The inner call to the recursive
`AdaptiveRK45::step` is fuelled; `none` propagates its
non-termination. -/
noncomputable def stepFuel (ray : KerrLightRay) (fuel : ℕ) :
    Option (KerrLightRay × Bool) :=
  if ray.max_steps ≤ ray.step_count then some (ray, false)
  else if kerr_schild.is_inside_horizon ray.geodesic.radius ray.black_hole then
    some (ray, false)
  else
    match ray.integrator.stepFuel (fun s => ray.compute_kerr_derivatives s)
      ray.geodesic ray.step_size fuel with
    | none => none
    | some (new_state, _actual_step, next_step) =>
      some ({ ray with
                geodesic := new_state
                step_size := next_step
                step_count := ray.step_count + 1 }, true)

/-- Embeds `KerrLightRay::has_escaped`. -/
def has_escaped (ray : KerrLightRay) : Prop :=
  ray.geodesic.radius > 100 * ray.black_hole.mass

end KerrLightRay

/-- Embeds `struct LightRay`. -/
structure LightRay where
  geodesic : Geodesic
  mass : ℝ
  step_size : ℝ
  max_steps : ℕ
  step_count : ℕ

namespace LightRay

/-- Embeds `LightRay::new`. -/
noncomputable def new (camera_pos ray_dir : Fin 3 → ℝ) (mass : ℝ) :
    LightRay :=
  let r := Real.sqrt (camera_pos 0 * camera_pos 0 +
    camera_pos 1 * camera_pos 1 + camera_pos 2 * camera_pos 2)
  let theta := Real.arccos (camera_pos 2 / r)
  let phi := atan2 (camera_pos 1) (camera_pos 0)
  let position : Fin 4 → ℝ := ![0, r, theta, phi]
  let momentum : Fin 4 → ℝ := ![1, ray_dir 0, ray_dir 1, ray_dir 2]
  { geodesic := Geodesic.new position momentum
    mass := mass
    step_size := 0.01
    max_steps := 10000
    step_count := 0 }

/-- Embeds `LightRay::compute_derivatives`. -/
noncomputable def compute_derivatives (ray : LightRay) (state : Geodesic) :
    Geodesic :=
  let r := state.position 1
  let theta := state.position 2
  let pos_deriv := state.momentum
  let mom_deriv : Fin 4 → ℝ :=
    ![0,
      if 2 * ray.mass < r then
        (let rs_over_r := 2 * ray.mass / r;
         -rs_over_r / (2 * r * r) * state.momentum 0 * state.momentum 0
           + rs_over_r * (1 - rs_over_r) / (2 * r * r) *
             state.momentum 1 * state.momentum 1
           + r * (1 - rs_over_r) *
             (state.momentum 2 * state.momentum 2 +
               (Real.sin theta) ^ 2 * state.momentum 3 * state.momentum 3))
      else 0,
      0, 0]
  Geodesic.new pos_deriv mom_deriv

/-- Embeds `LightRay::add_derivatives` (the Rust method mutates `state`
in place; here the updated state is returned). -/
def add_derivatives (state deriv : Geodesic) (step : ℝ) : Geodesic :=
  { position := fun i => state.position i + deriv.position i * step
    momentum := fun i => state.momentum i + deriv.momentum i * step }

/-- Stage `k1` of the RK4 block of `LightRay::step`. -/
noncomputable def rk4_k1 (ray : LightRay) : Geodesic :=
  ray.compute_derivatives ray.geodesic

/-- Stage `k2` of the RK4 block of `LightRay::step`. -/
noncomputable def rk4_k2 (ray : LightRay) : Geodesic :=
  ray.compute_derivatives
    (add_derivatives ray.geodesic (rk4_k1 ray) (ray.step_size * 0.5))

/-- Stage `k3` of the RK4 block of `LightRay::step`. -/
noncomputable def rk4_k3 (ray : LightRay) : Geodesic :=
  ray.compute_derivatives
    (add_derivatives ray.geodesic (rk4_k2 ray) (ray.step_size * 0.5))

/-- Stage `k4` of the RK4 block of `LightRay::step`. -/
noncomputable def rk4_k4 (ray : LightRay) : Geodesic :=
  ray.compute_derivatives
    (add_derivatives ray.geodesic (rk4_k3 ray) ray.step_size)

/-- The geodesic update applied by the integration branch of
`LightRay::step`: the classical RK4 combination
`(k1 + 2 k2 + 2 k3 + k4) / 6` scaled by the step size. -/
noncomputable def rk4_update (ray : LightRay) : Geodesic :=
  { position := fun i => ray.geodesic.position i +
      ((rk4_k1 ray).position i + 2 * (rk4_k2 ray).position i +
        2 * (rk4_k3 ray).position i + (rk4_k4 ray).position i) / 6 *
      ray.step_size
    momentum := fun i => ray.geodesic.momentum i +
      ((rk4_k1 ray).momentum i + 2 * (rk4_k2 ray).momentum i +
        2 * (rk4_k3 ray).momentum i + (rk4_k4 ray).momentum i) / 6 *
      ray.step_size }

/-- Embeds `LightRay::step`. -/
noncomputable def step (ray : LightRay) : LightRay × Bool :=
  if ray.max_steps ≤ ray.step_count then (ray, false)
  else if ray.geodesic.is_inside_event_horizon ray.mass then (ray, false)
  else
    ({ ray with
         geodesic := rk4_update ray
         step_count := ray.step_count + 1 }, true)

/-- Embeds `LightRay::has_escaped`. -/
def has_escaped (ray : LightRay) : Prop :=
  ray.geodesic.radius > 100 * ray.mass

end LightRay

/-! ## Concrete inputs used by the witnesses -/

/-- The zero geodesic state, used as a concrete input. -/
def witGeo : Geodesic := ⟨fun _ => 0, fun _ => 0⟩

/-- A derivative function that is identically zero, used as a concrete
input. -/
def witF : Geodesic → Geodesic := fun _ => witGeo

/-- A concrete integrator configuration whose accept test always
succeeds on `witF` (`error = 0 ≤ 1 = tolerance`). -/
def witCfg : AdaptiveRK45 :=
  { abs_tolerance := 1
    rel_tolerance := 0
    min_step := 0
    max_step := 1
    safety_factor := 1 }

/-- A concrete integrator configuration whose accept test always fails
on `witF` (`error = 0 > -1 = tolerance` is false, i.e. `0 ≤ -1` fails). -/
def witRejCfg : AdaptiveRK45 :=
  { abs_tolerance := -1
    rel_tolerance := 0
    min_step := 0
    max_step := 1
    safety_factor := 1 }

/-- A concrete `LightRay` whose step budget is already exhausted. -/
noncomputable def witLightRayBudget : LightRay :=
  { geodesic := ⟨![0, 5, 1, 0], ![1, 0, 0, 0]⟩
    mass := 1
    step_size := 0.01
    max_steps := 0
    step_count := 0 }

/-- A concrete `LightRay` inside the capture radius (`r = 1 ≤ 2M = 2`). -/
noncomputable def witLightRayCaptured : LightRay :=
  { geodesic := ⟨![0, 1, 1, 0], ![1, 0, 0, 0]⟩
    mass := 1
    step_size := 0.01
    max_steps := 10
    step_count := 0 }

/-- A concrete `KerrLightRay` whose step budget is already exhausted. -/
noncomputable def witKerrRayBudget : KerrLightRay :=
  { geodesic := ⟨![0, 5, 1, 0], ![1, 0, 0, 0]⟩
    conserved := ⟨1, 0, 0⟩
    black_hole := ⟨1, 0⟩
    integrator := AdaptiveRK45.default
    step_size := 0.1
    max_steps := 0
    step_count := 0 }

/-- A concrete `KerrLightRay` inside the capture radius
(`r = 1 ≤ outer_horizon = 2`). -/
noncomputable def witKerrRayCaptured : KerrLightRay :=
  { geodesic := ⟨![0, 1, 1, 0], ![1, 0, 0, 0]⟩
    conserved := ⟨1, 0, 0⟩
    black_hole := ⟨1, 0⟩
    integrator := AdaptiveRK45.default
    step_size := 0.1
    max_steps := 10
    step_count := 0 }

/-! ## Helper lemmas -/

/-- The loop of `estimate_error` computes the maximum absolute
componentwise difference over all 8 scalar components. -/
lemma estimate_error_eq (y4 y5 : Geodesic) :
    estimate_error y4 y5 =
      max (max (max |y5.position 0 - y4.position 0| |y5.momentum 0 - y4.momentum 0|)
            (max |y5.position 1 - y4.position 1| |y5.momentum 1 - y4.momentum 1|))
        (max (max |y5.position 2 - y4.position 2| |y5.momentum 2 - y4.momentum 2|)
          (max |y5.position 3 - y4.position 3| |y5.momentum 3 - y4.momentum 3|)) := by
  simp only [estimate_error, List.foldl]
  rw [show (max 0 |y5.position 0 - y4.position 0| : ℝ) =
    |y5.position 0 - y4.position 0| from max_eq_right (abs_nonneg _)]
  ac_rfl

/-- The loop of `state_norm` computes the Euclidean norm of the 8
scalar components. -/
lemma state_norm_eq (g : Geodesic) :
    state_norm g = Real.sqrt
      (g.position 0 ^ 2 + g.position 1 ^ 2 + g.position 2 ^ 2 + g.position 3 ^ 2 +
       g.momentum 0 ^ 2 + g.momentum 1 ^ 2 + g.momentum 2 ^ 2 + g.momentum 3 ^ 2) := by
  simp only [state_norm, List.foldl]
  congr 1
  ring

/-- On the zero derivative function and zero state, both embedded RK45
solutions coincide with the state, so the estimated error is zero. -/
lemma witF_estimate_error_zero (h : ℝ) :
    estimate_error (rk45_y4 witF witGeo h) (rk45_y5 witF witGeo h) = 0 := by
  simp [estimate_error, rk45_y4, rk45_y5, rk45_k1, rk45_k2, rk45_k3,
    rk45_k4, rk45_k5, rk45_k6, add_k_to_state, witF, witGeo]

/-- The zero state has zero norm. -/
lemma witGeo_state_norm_zero : state_norm witGeo = 0 := by
  simp [state_norm, witGeo]

/-! ## Claim theorems -/

/-- C2: `AdaptiveRK45::step` first clamps the requested step into
`[min_step, max_step]` to obtain `h`; it computes the RKF45 4th- and
5th-order estimates; takes the error as the maximum absolute difference
between the two estimates over all 8 scalar components and the
tolerance as `abs_tolerance + rel_tolerance * ‖state‖₂` over the 8
components of the input state; and whenever `error ≤ tolerance` it
returns the 5th-order estimate `y5`, the step `h` actually used, and
`suggested_next_step = clamp(h * safety_factor *
(tolerance / max(error, 1e-14))^0.2, min_step, max_step)`. -/
theorem adaptiveRK45_step_accepts (c : AdaptiveRK45)
    (f : Geodesic → Geodesic) (s : Geodesic) (step_size : ℝ) (fuel : ℕ)
    (hc : c.min_step ≤ c.max_step)
    (hacc :
      max (max (max |(rk45_y5 f s (max c.min_step (min c.max_step step_size))).position 0 -
                     (rk45_y4 f s (max c.min_step (min c.max_step step_size))).position 0|
                    |(rk45_y5 f s (max c.min_step (min c.max_step step_size))).momentum 0 -
                     (rk45_y4 f s (max c.min_step (min c.max_step step_size))).momentum 0|)
            (max |(rk45_y5 f s (max c.min_step (min c.max_step step_size))).position 1 -
                  (rk45_y4 f s (max c.min_step (min c.max_step step_size))).position 1|
                 |(rk45_y5 f s (max c.min_step (min c.max_step step_size))).momentum 1 -
                  (rk45_y4 f s (max c.min_step (min c.max_step step_size))).momentum 1|))
        (max (max |(rk45_y5 f s (max c.min_step (min c.max_step step_size))).position 2 -
                   (rk45_y4 f s (max c.min_step (min c.max_step step_size))).position 2|
                  |(rk45_y5 f s (max c.min_step (min c.max_step step_size))).momentum 2 -
                   (rk45_y4 f s (max c.min_step (min c.max_step step_size))).momentum 2|)
          (max |(rk45_y5 f s (max c.min_step (min c.max_step step_size))).position 3 -
                (rk45_y4 f s (max c.min_step (min c.max_step step_size))).position 3|
               |(rk45_y5 f s (max c.min_step (min c.max_step step_size))).momentum 3 -
                (rk45_y4 f s (max c.min_step (min c.max_step step_size))).momentum 3|)) ≤
      c.abs_tolerance + c.rel_tolerance * Real.sqrt
        (s.position 0 ^ 2 + s.position 1 ^ 2 + s.position 2 ^ 2 + s.position 3 ^ 2 +
         s.momentum 0 ^ 2 + s.momentum 1 ^ 2 + s.momentum 2 ^ 2 + s.momentum 3 ^ 2)) :
    c.stepFuel f s step_size (fuel + 1) =
      some (rk45_y5 f s (max c.min_step (min c.max_step step_size)),
        max c.min_step (min c.max_step step_size),
        max c.min_step (min c.max_step
          (max c.min_step (min c.max_step step_size) * c.safety_factor *
            ((c.abs_tolerance + c.rel_tolerance * state_norm s) /
              max (estimate_error
                (rk45_y4 f s (max c.min_step (min c.max_step step_size)))
                (rk45_y5 f s (max c.min_step (min c.max_step step_size)))) 1e-14)
              ^ (0.2 : ℝ)))) := by
  rw [← estimate_error_eq, ← state_norm_eq] at hacc
  rw [AdaptiveRK45.stepFuel, if_pos hc]
  simp only []
  rw [if_pos hacc]

/-- Witness for C2: a concrete configuration, zero derivative function,
zero state and requested step `1/2`, where the accept test holds. -/
theorem adaptiveRK45_step_accepts_witness :
    witCfg.min_step ≤ witCfg.max_step ∧
    max (max (max |(rk45_y5 witF witGeo (max witCfg.min_step (min witCfg.max_step (1/2)))).position 0 -
                   (rk45_y4 witF witGeo (max witCfg.min_step (min witCfg.max_step (1/2)))).position 0|
                  |(rk45_y5 witF witGeo (max witCfg.min_step (min witCfg.max_step (1/2)))).momentum 0 -
                   (rk45_y4 witF witGeo (max witCfg.min_step (min witCfg.max_step (1/2)))).momentum 0|)
          (max |(rk45_y5 witF witGeo (max witCfg.min_step (min witCfg.max_step (1/2)))).position 1 -
                (rk45_y4 witF witGeo (max witCfg.min_step (min witCfg.max_step (1/2)))).position 1|
               |(rk45_y5 witF witGeo (max witCfg.min_step (min witCfg.max_step (1/2)))).momentum 1 -
                (rk45_y4 witF witGeo (max witCfg.min_step (min witCfg.max_step (1/2)))).momentum 1|))
      (max (max |(rk45_y5 witF witGeo (max witCfg.min_step (min witCfg.max_step (1/2)))).position 2 -
                 (rk45_y4 witF witGeo (max witCfg.min_step (min witCfg.max_step (1/2)))).position 2|
                |(rk45_y5 witF witGeo (max witCfg.min_step (min witCfg.max_step (1/2)))).momentum 2 -
                 (rk45_y4 witF witGeo (max witCfg.min_step (min witCfg.max_step (1/2)))).momentum 2|)
        (max |(rk45_y5 witF witGeo (max witCfg.min_step (min witCfg.max_step (1/2)))).position 3 -
              (rk45_y4 witF witGeo (max witCfg.min_step (min witCfg.max_step (1/2)))).position 3|
             |(rk45_y5 witF witGeo (max witCfg.min_step (min witCfg.max_step (1/2)))).momentum 3 -
              (rk45_y4 witF witGeo (max witCfg.min_step (min witCfg.max_step (1/2)))).momentum 3|)) ≤
      witCfg.abs_tolerance + witCfg.rel_tolerance * Real.sqrt
        (witGeo.position 0 ^ 2 + witGeo.position 1 ^ 2 + witGeo.position 2 ^ 2 +
         witGeo.position 3 ^ 2 + witGeo.momentum 0 ^ 2 + witGeo.momentum 1 ^ 2 +
         witGeo.momentum 2 ^ 2 + witGeo.momentum 3 ^ 2) ∧
    witCfg.stepFuel witF witGeo (1/2) 1 =
      some (rk45_y5 witF witGeo (max witCfg.min_step (min witCfg.max_step (1/2))),
        max witCfg.min_step (min witCfg.max_step (1/2)),
        max witCfg.min_step (min witCfg.max_step
          (max witCfg.min_step (min witCfg.max_step (1/2)) * witCfg.safety_factor *
            ((witCfg.abs_tolerance + witCfg.rel_tolerance * state_norm witGeo) /
              max (estimate_error
                (rk45_y4 witF witGeo (max witCfg.min_step (min witCfg.max_step (1/2))))
                (rk45_y5 witF witGeo (max witCfg.min_step (min witCfg.max_step (1/2))))) 1e-14)
              ^ (0.2 : ℝ)))) := by
  have hc : witCfg.min_step ≤ witCfg.max_step := by norm_num [witCfg]
  refine ⟨hc, ?hacc, adaptiveRK45_step_accepts witCfg witF witGeo (1/2) 0 hc ?hacc⟩
  case hacc =>
    rw [← estimate_error_eq, ← state_norm_eq, witF_estimate_error_zero,
      witGeo_state_norm_zero]
    norm_num [witCfg]

/-- C4: whenever the computed error exceeds the tolerance,
`AdaptiveRK45::step` rejects the step and recursively retries itself
with the suggested smaller step size, with no maximum retry count
enforced; and whenever the accept test `error ≤ tolerance` fails on
every retry (as it does when the error is NaN, since IEEE-754
comparisons with NaN are false — rendered here as the test failing for
every clamped step size), no retry is ever accepted and the call does
not terminate (no recursion depth returns a value). -/
theorem adaptiveRK45_step_reject_recursion (c : AdaptiveRK45)
    (f : Geodesic → Geodesic) (s : Geodesic)
    (hc : c.min_step ≤ c.max_step) :
    (∀ (step_size : ℝ) (fuel : ℕ),
      ¬ (estimate_error (rk45_y4 f s (max c.min_step (min c.max_step step_size)))
          (rk45_y5 f s (max c.min_step (min c.max_step step_size))) ≤
          c.abs_tolerance + c.rel_tolerance * state_norm s) →
      c.stepFuel f s step_size (fuel + 1) =
        c.stepFuel f s
          (max c.min_step (min c.max_step
            (max c.min_step (min c.max_step step_size) * c.safety_factor *
              ((c.abs_tolerance + c.rel_tolerance * state_norm s) /
                max (estimate_error
                  (rk45_y4 f s (max c.min_step (min c.max_step step_size)))
                  (rk45_y5 f s (max c.min_step (min c.max_step step_size)))) 1e-14)
                ^ (0.2 : ℝ)))) fuel) ∧
    ((∀ z : ℝ,
        ¬ (estimate_error (rk45_y4 f s (max c.min_step (min c.max_step z)))
            (rk45_y5 f s (max c.min_step (min c.max_step z))) ≤
            c.abs_tolerance + c.rel_tolerance * state_norm s)) →
      ∀ (fuel : ℕ) (step_size : ℝ), c.stepFuel f s step_size fuel = none) := by
  constructor
  · intro step_size fuel hrej
    rw [AdaptiveRK45.stepFuel, if_pos hc]
    simp only []
    rw [if_neg hrej]
  · intro hrej fuel
    induction fuel with
    | zero => intro _; rw [AdaptiveRK45.stepFuel]
    | succ n ih =>
      intro step_size
      rw [AdaptiveRK45.stepFuel, if_pos hc]
      simp only []
      rw [if_neg (hrej step_size)]
      exact ih _

/-- Witness for C4: a concrete configuration with negative absolute
tolerance, on which the accept test fails for every step size, so the
fuelled recursion returns nothing at any depth. -/
theorem adaptiveRK45_step_reject_recursion_witness :
    witRejCfg.min_step ≤ witRejCfg.max_step ∧
    (∀ z : ℝ,
      ¬ (estimate_error
          (rk45_y4 witF witGeo (max witRejCfg.min_step (min witRejCfg.max_step z)))
          (rk45_y5 witF witGeo (max witRejCfg.min_step (min witRejCfg.max_step z))) ≤
          witRejCfg.abs_tolerance + witRejCfg.rel_tolerance * state_norm witGeo)) ∧
    witRejCfg.stepFuel witF witGeo (1/2) 5 = none := by
  have hc : witRejCfg.min_step ≤ witRejCfg.max_step := by norm_num [witRejCfg]
  have hrej : ∀ z : ℝ,
      ¬ (estimate_error
          (rk45_y4 witF witGeo (max witRejCfg.min_step (min witRejCfg.max_step z)))
          (rk45_y5 witF witGeo (max witRejCfg.min_step (min witRejCfg.max_step z))) ≤
          witRejCfg.abs_tolerance + witRejCfg.rel_tolerance * state_norm witGeo) := by
    intro z
    rw [witF_estimate_error_zero, witGeo_state_norm_zero]
    norm_num [witRejCfg]
  exact ⟨hc, hrej,
    (adaptiveRK45_step_reject_recursion witRejCfg witF witGeo hc).2 hrej 5 (1/2)⟩

/-- C1: for both ray sessions, `step()` checks its guards in order at
the top of the call: if `step_count ≥ max_steps` it returns
false/stop; otherwise, if the current radius is at or below the
capture radius (`r ≤ 2M` for `LightRay`, `r ≤ outer_horizon` for
`KerrLightRay`) it returns false/stop; otherwise it performs exactly
one integration step (the fixed RK4 update for `LightRay`, one
adaptive RKF45 step for `KerrLightRay`), increments `step_count` by
one, and returns true/continue. -/
theorem step_checks_in_order :
    (∀ ray : LightRay,
      (ray.max_steps ≤ ray.step_count → ray.step = (ray, false)) ∧
      (ray.step_count < ray.max_steps → ray.geodesic.radius ≤ 2 * ray.mass →
        ray.step = (ray, false)) ∧
      (ray.step_count < ray.max_steps → 2 * ray.mass < ray.geodesic.radius →
        ray.step = ({ ray with
          geodesic := LightRay.rk4_update ray
          step_count := ray.step_count + 1 }, true))) ∧
    (∀ (ray : KerrLightRay) (fuel : ℕ),
      (ray.max_steps ≤ ray.step_count → ray.stepFuel fuel = some (ray, false)) ∧
      (ray.step_count < ray.max_steps →
        ray.geodesic.radius ≤ ray.black_hole.outer_horizon →
        ray.stepFuel fuel = some (ray, false)) ∧
      (∀ new_state actual_step next_step,
        ray.step_count < ray.max_steps →
        ray.black_hole.outer_horizon < ray.geodesic.radius →
        ray.integrator.stepFuel (fun s => ray.compute_kerr_derivatives s)
          ray.geodesic ray.step_size fuel =
          some (new_state, actual_step, next_step) →
        ray.stepFuel fuel = some ({ ray with
          geodesic := new_state
          step_size := next_step
          step_count := ray.step_count + 1 }, true))) := by
  constructor
  · intro ray
    refine ⟨fun hbudget => ?_, fun hbudget hcap => ?_, fun hbudget hcap => ?_⟩
    · rw [LightRay.step, if_pos hbudget]
    · have hcap2 : ray.geodesic.is_inside_event_horizon ray.mass := hcap
      rw [LightRay.step, if_neg (by omega), if_pos hcap2]
    · have hcap2 : ¬ ray.geodesic.is_inside_event_horizon ray.mass :=
        not_le.mpr hcap
      rw [LightRay.step, if_neg (by omega), if_neg hcap2]
  · intro ray fuel
    refine ⟨fun hbudget => ?_, fun hbudget hcap => ?_,
      fun new_state actual_step next_step hbudget hcap hstep => ?_⟩
    · rw [KerrLightRay.stepFuel, if_pos hbudget]
    · have hcap2 : kerr_schild.is_inside_horizon ray.geodesic.radius ray.black_hole :=
        hcap
      rw [KerrLightRay.stepFuel, if_neg (by omega), if_pos hcap2]
    · have hcap2 : ¬ kerr_schild.is_inside_horizon ray.geodesic.radius ray.black_hole :=
        not_le.mpr hcap
      rw [KerrLightRay.stepFuel, if_neg (by omega), if_neg hcap2, hstep]

/-- Witness for C1: the budget guard fires on concrete exhausted-budget
rays of both session types. -/
theorem step_checks_in_order_witness :
    witLightRayBudget.max_steps ≤ witLightRayBudget.step_count ∧
    witLightRayBudget.step = (witLightRayBudget, false) ∧
    witKerrRayBudget.max_steps ≤ witKerrRayBudget.step_count ∧
    witKerrRayBudget.stepFuel 4 = some (witKerrRayBudget, false) :=
  ⟨le_refl 0,
   (step_checks_in_order.1 witLightRayBudget).1 (le_refl 0),
   le_refl 0,
   (step_checks_in_order.2 witKerrRayBudget 4).1 (le_refl 0)⟩

/-- C9: when either early-out guard fires (`step_count ≥ max_steps`,
or radius at or inside the capture radius), `step()` returns false and
leaves every session field unchanged (the returned session is exactly
the input session, so geodesic position and momentum, step size, and
step counter are untouched). -/
theorem step_guard_frame :
    (∀ ray : LightRay,
      ray.max_steps ≤ ray.step_count ∨ ray.geodesic.radius ≤ 2 * ray.mass →
      ray.step = (ray, false)) ∧
    (∀ (ray : KerrLightRay) (fuel : ℕ),
      ray.max_steps ≤ ray.step_count ∨
        ray.geodesic.radius ≤ ray.black_hole.outer_horizon →
      ray.stepFuel fuel = some (ray, false)) := by
  constructor
  · intro ray hguard
    by_cases hbudget : ray.max_steps ≤ ray.step_count
    · rw [LightRay.step, if_pos hbudget]
    · rcases hguard with h | hcap
      · exact absurd h hbudget
      · have hcap2 : ray.geodesic.is_inside_event_horizon ray.mass := hcap
        rw [LightRay.step, if_neg hbudget, if_pos hcap2]
  · intro ray fuel hguard
    by_cases hbudget : ray.max_steps ≤ ray.step_count
    · rw [KerrLightRay.stepFuel, if_pos hbudget]
    · rcases hguard with h | hcap
      · exact absurd h hbudget
      · have hcap2 : kerr_schild.is_inside_horizon ray.geodesic.radius
            ray.black_hole := hcap
        rw [KerrLightRay.stepFuel, if_neg hbudget, if_pos hcap2]

/-- Witness for C9: the capture guard fires on concrete captured rays of
both session types (radius 1, capture radius 2), leaving them
unchanged. -/
theorem step_guard_frame_witness :
    (witLightRayCaptured.max_steps ≤ witLightRayCaptured.step_count ∨
      witLightRayCaptured.geodesic.radius ≤ 2 * witLightRayCaptured.mass) ∧
    witLightRayCaptured.step = (witLightRayCaptured, false) ∧
    (witKerrRayCaptured.max_steps ≤ witKerrRayCaptured.step_count ∨
      witKerrRayCaptured.geodesic.radius ≤
        witKerrRayCaptured.black_hole.outer_horizon) ∧
    witKerrRayCaptured.stepFuel 7 = some (witKerrRayCaptured, false) := by
  have h1 : witLightRayCaptured.geodesic.radius ≤ 2 * witLightRayCaptured.mass := by
    simp [witLightRayCaptured, Geodesic.radius]
  have h2 : witKerrRayCaptured.geodesic.radius ≤
      witKerrRayCaptured.black_hole.outer_horizon := by
    simp [witKerrRayCaptured, Geodesic.radius, KerrBlackHole.outer_horizon]
  exact ⟨Or.inr h1, step_guard_frame.1 witLightRayCaptured (Or.inr h1),
    Or.inr h2, step_guard_frame.2 witKerrRayCaptured 7 (Or.inr h2)⟩

/-- C10: the Kerr-model derivative function returns a momentum
derivative that is componentwise identical to its position derivative;
the momentum components are never evolved by a separate equation. -/
theorem kerr_derivatives_momentum_eq_position (ray : KerrLightRay)
    (state : Geodesic) :
    (ray.compute_kerr_derivatives state).momentum =
      (ray.compute_kerr_derivatives state).position := rfl

/-- C5 counterexample: for mass `-1` the internal
`spin.clamp(-mass, mass)` has `min = 1 > max = -1`, so the constructor
panics (modelled as `none`) instead of returning normally. -/
theorem kerrBlackHole_new_neg_mass_panics :
    KerrBlackHole.new (-1) 0 = none := by
  rw [KerrBlackHole.new, f32ClampChecked, if_neg (by norm_num)]
  rfl

/-- C5 (amended): for every mass `M ≥ 0` (positivity is still not
validated: `M = 0` is accepted) and every spin, `KerrBlackHole::new`
returns normally, storing the mass unchanged and the spin clamped
silently into `[-mass, mass]` (so `|spin| ≤ mass` afterward); for
`M < 0` the internal clamp has `min > max` and panics. -/
theorem kerrBlackHole_new_clamps_spin (mass spin : ℝ) (hm : 0 ≤ mass) :
    KerrBlackHole.new mass spin =
      some ⟨mass, max (-mass) (min mass spin)⟩ ∧
    |max (-mass) (min mass spin)| ≤ mass := by
  constructor
  · rw [KerrBlackHole.new, f32ClampChecked,
      if_pos (by linarith : (-mass : ℝ) ≤ mass)]
    rfl
  · rw [abs_le]
    exact ⟨le_max_left _ _, max_le (by linarith) (min_le_left _ _)⟩

/-- Witness for C5 (amended) at mass `2`, spin `5`: the spin is stored
clamped to `2`. -/
theorem kerrBlackHole_new_clamps_spin_witness :
    (0 : ℝ) ≤ 2 ∧
    (KerrBlackHole.new 2 5 = some ⟨2, max (-2) (min 2 5)⟩ ∧
      |max (-2 : ℝ) (min 2 5)| ≤ 2) :=
  ⟨by norm_num, kerrBlackHole_new_clamps_spin 2 5 (by norm_num)⟩

/-- The positive-root-with-turning-point branch of the source written
as `sqrt(max(P, 0)) / σ`. -/
lemma sqrt_clamp_branch (P sig : ℝ) :
    (if 0 ≤ P then Real.sqrt P / sig else 0) = Real.sqrt (max P 0) / sig := by
  by_cases h : 0 ≤ P
  · rw [if_pos h, max_eq_left h]
  · rw [if_neg h, max_eq_right (le_of_lt (not_le.mp h)), Real.sqrt_zero,
      zero_div]

/-- C3 counterexample: a concrete ray (energy 1, axial angular momentum
0, Carter constant 0, spin 2) and state (r = 2, theta = pi/3) on which
the code's polar derivative is `1/5`, while the claimed polar potential
`Q - cos^2(theta) * [a^2 (1 - E^2) + Lz^2 / sin^2(theta)]` yields
`sqrt(max(Theta, 0))/Sigma = 0`. -/
theorem kerr_theta_potential_cex :
    ((⟨⟨![0, 2, Real.pi/3, 0], ![0, 0, 0, 0]⟩, ⟨1, 0, 0⟩, ⟨2, 2⟩,
       AdaptiveRK45.default, 0.1, 10000, 0⟩ : KerrLightRay).compute_kerr_derivatives
      ⟨![0, 2, Real.pi/3, 0], ![0, 0, 0, 0]⟩).position 2 = 1/5 ∧
    Real.sqrt (max ((0 : ℝ) - Real.cos (Real.pi/3) ^ 2 *
      ((2 : ℝ)^2 * (1 - (1 : ℝ)^2) + (0 : ℝ)^2 / Real.sin (Real.pi/3) ^ 2)) 0) /
      kerr_schild.sigma 2 (Real.pi/3) 2 = 0 ∧
    (1/5 : ℝ) ≠ 0 := by
  refine ⟨?_, ?_, by norm_num⟩
  · simp only [KerrLightRay.compute_kerr_derivatives, Geodesic.new,
      Matrix.cons_val_one, Matrix.head_cons, Matrix.cons_val_two,
      Matrix.tail_cons, kerr_schild.sigma, kerr_schild.delta]
    norm_num [Real.cos_pi_div_three, Real.sqrt_one]
  · norm_num [Real.cos_pi_div_three]

/-- C3 (amended): for every geodesic state, the Kerr-model derivative
function returns `dr/dlambda = sqrt(max(R, 0))/Sigma` with radial
potential `R = [E(r^2+a^2) - a Lz]^2 - Delta [(Lz - a E)^2 + Q]`, and
`dtheta/dlambda = sqrt(max(Theta, 0))/Sigma` with polar potential
`Theta = Q - cos^2(theta) [a^2 (0 - E^2) + Lz^2 / sin^2(theta)]` (the
null-geodesic `mu = 0` form: the `a^2` term carries `-E^2`, not
`1 - E^2`), where `E`, `Lz`, `Q` are the ray's stored conserved
quantities and `Sigma`, `Delta` the Kerr metric functions. -/
theorem kerr_derivatives_radial_polar (ray : KerrLightRay) (state : Geodesic) :
    (ray.compute_kerr_derivatives state).position 1 =
      Real.sqrt (max
        ((ray.conserved.energy * (state.position 1 ^ 2 + ray.black_hole.spin ^ 2) -
          ray.black_hole.spin * ray.conserved.angular_momentum_z) ^ 2 -
         kerr_schild.delta (state.position 1) ray.black_hole.mass ray.black_hole.spin *
           ((ray.conserved.angular_momentum_z -
             ray.black_hole.spin * ray.conserved.energy) ^ 2 +
            ray.conserved.carter_constant)) 0) /
      kerr_schild.sigma (state.position 1) (state.position 2) ray.black_hole.spin ∧
    (ray.compute_kerr_derivatives state).position 2 =
      Real.sqrt (max
        (ray.conserved.carter_constant - Real.cos (state.position 2) ^ 2 *
          (ray.black_hole.spin ^ 2 * (0 - ray.conserved.energy ^ 2) +
           ray.conserved.angular_momentum_z ^ 2 / Real.sin (state.position 2) ^ 2)) 0) /
      kerr_schild.sigma (state.position 1) (state.position 2) ray.black_hole.spin := by
  constructor
  · simp only [KerrLightRay.compute_kerr_derivatives, Geodesic.new,
      Matrix.cons_val_one, Matrix.head_cons]
    rw [sqrt_clamp_branch]
    congr 2
    ring_nf
  · simp only [KerrLightRay.compute_kerr_derivatives, Geodesic.new,
      Matrix.cons_val_two, Matrix.tail_cons, Matrix.head_cons]
    rw [sqrt_clamp_branch]
    congr 2
    ring_nf

/-- C6: for a zero-spin black hole with `M > 0` and any position with
`r > 2M`, `theta ∈ (0, pi)`, the Kerr-Schild metric is a symmetric 4×4
matrix whose diagonal matches the Schwarzschild coefficients within
`1e-6` and whose off-diagonal entries are within `1e-6` of zero. -/
theorem metric_zero_spin_matches_schwarzschild (bh : KerrBlackHole)
    (r theta : ℝ) (hspin : bh.spin = 0) (hM : 0 < bh.mass)
    (hr : 2 * bh.mass < r) (_ht0 : 0 < theta) (_htpi : theta < Real.pi) :
    (∀ i j, kerr_schild.metric_components r theta bh i j =
      kerr_schild.metric_components r theta bh j i) ∧
    |kerr_schild.metric_components r theta bh 0 0 -
      schwarzschild.g_tt bh.mass r| ≤ 1e-6 ∧
    |kerr_schild.metric_components r theta bh 1 1 -
      schwarzschild.g_rr bh.mass r| ≤ 1e-6 ∧
    |kerr_schild.metric_components r theta bh 2 2 -
      schwarzschild.g_theta_theta r| ≤ 1e-6 ∧
    |kerr_schild.metric_components r theta bh 3 3 -
      schwarzschild.g_phi_phi r theta| ≤ 1e-6 ∧
    (∀ i j, i ≠ j → |kerr_schild.metric_components r theta bh i j| ≤ 1e-6) := by
  have hrpos : 0 < r := lt_trans (by linarith) hr
  have hr0 : r ≠ 0 := ne_of_gt hrpos
  have hd : r - 2 * bh.mass ≠ 0 := sub_ne_zero.mpr (ne_of_gt hr)
  refine ⟨?_, ?_, ?_, ?_, ?_, ?_⟩
  · intro i j
    fin_cases i <;> fin_cases j <;> simp [kerr_schild.metric_components]
  · have e00 : kerr_schild.metric_components r theta bh 0 0 =
        schwarzschild.g_tt bh.mass r := by
      norm_num [kerr_schild.metric_components, kerr_schild.sigma,
        schwarzschild.g_tt, hspin]
      field_simp
      ring
    rw [e00, sub_self, abs_zero]; norm_num
  · have e11 : kerr_schild.metric_components r theta bh 1 1 =
        schwarzschild.g_rr bh.mass r := by
      norm_num [kerr_schild.metric_components, kerr_schild.sigma,
        schwarzschild.g_rr, hspin]
      have hne1 : r * r - 2 * bh.mass * r ≠ 0 := by
        have hfac : r * r - 2 * bh.mass * r = r * (r - 2 * bh.mass) := by ring
        rw [hfac]
        exact mul_ne_zero hr0 hd
      have hne2 : 1 - 2 * bh.mass / r ≠ 0 := by
        have h1 : 2 * bh.mass / r < 1 := (div_lt_one hrpos).mpr hr
        linarith
      field_simp
      ring
    rw [e11, sub_self, abs_zero]; norm_num
  · have e22 : kerr_schild.metric_components r theta bh 2 2 =
        schwarzschild.g_theta_theta r := by
      norm_num [kerr_schild.metric_components, kerr_schild.sigma,
        schwarzschild.g_theta_theta, hspin]
    rw [e22, sub_self, abs_zero]; norm_num
  · have e33 : kerr_schild.metric_components r theta bh 3 3 =
        schwarzschild.g_phi_phi r theta := by
      norm_num [kerr_schild.metric_components, kerr_schild.sigma,
        schwarzschild.g_phi_phi, hspin]
      ring
    rw [e33, sub_self, abs_zero]; norm_num
  · intro i j hij
    fin_cases i <;> fin_cases j <;>
      first
        | exact absurd rfl hij
        | norm_num [kerr_schild.metric_components, kerr_schild.sigma, hspin]

/-- Witness for C6 at the zero-spin unit-mass black hole, `r = 3`,
`theta = pi/2`. -/
theorem metric_zero_spin_matches_schwarzschild_witness :
    ((⟨1, 0⟩ : KerrBlackHole).spin = 0 ∧ 0 < (⟨1, 0⟩ : KerrBlackHole).mass ∧
      2 * (⟨1, 0⟩ : KerrBlackHole).mass < 3 ∧ 0 < Real.pi / 2 ∧
      Real.pi / 2 < Real.pi) ∧
    ((∀ i j, kerr_schild.metric_components 3 (Real.pi / 2) ⟨1, 0⟩ i j =
        kerr_schild.metric_components 3 (Real.pi / 2) ⟨1, 0⟩ j i) ∧
      |kerr_schild.metric_components 3 (Real.pi / 2) ⟨1, 0⟩ 0 0 -
        schwarzschild.g_tt (⟨1, 0⟩ : KerrBlackHole).mass 3| ≤ 1e-6 ∧
      |kerr_schild.metric_components 3 (Real.pi / 2) ⟨1, 0⟩ 1 1 -
        schwarzschild.g_rr (⟨1, 0⟩ : KerrBlackHole).mass 3| ≤ 1e-6 ∧
      |kerr_schild.metric_components 3 (Real.pi / 2) ⟨1, 0⟩ 2 2 -
        schwarzschild.g_theta_theta 3| ≤ 1e-6 ∧
      |kerr_schild.metric_components 3 (Real.pi / 2) ⟨1, 0⟩ 3 3 -
        schwarzschild.g_phi_phi 3 (Real.pi / 2)| ≤ 1e-6 ∧
      (∀ i j, i ≠ j →
        |kerr_schild.metric_components 3 (Real.pi / 2) ⟨1, 0⟩ i j| ≤ 1e-6)) := by
  have hpi : 0 < Real.pi := Real.pi_pos
  exact ⟨⟨rfl, by norm_num, by norm_num, by linarith, by linarith⟩,
    metric_zero_spin_matches_schwarzschild ⟨1, 0⟩ 3 (Real.pi / 2) rfl
      (by norm_num) (by norm_num) (by linarith) (by linarith)⟩

/-- C7: both ray constructors set the initial spacetime position to
`(0, r, acos(z/r), atan2(y, x))` with `r = sqrt(x^2 + y^2 + z^2)`, set
the initial momentum to `(1, dx, dy, dz)` taken directly from the
unnormalized direction vector, and set `step_count` to 0; in
particular the ray constructed at origin `(0, 0, 5)` with direction
`(0, 0, -1)` and mass `1.0` has `radius() = 5` and `step_count = 0`. -/
theorem ray_constructors_initial_state :
    (∀ (camera_pos ray_dir : Fin 3 → ℝ) (mass : ℝ),
      (LightRay.new camera_pos ray_dir mass).geodesic.position =
        ![0,
          Real.sqrt (camera_pos 0 ^ 2 + camera_pos 1 ^ 2 + camera_pos 2 ^ 2),
          Real.arccos (camera_pos 2 /
            Real.sqrt (camera_pos 0 ^ 2 + camera_pos 1 ^ 2 + camera_pos 2 ^ 2)),
          atan2 (camera_pos 1) (camera_pos 0)] ∧
      (LightRay.new camera_pos ray_dir mass).geodesic.momentum =
        ![1, ray_dir 0, ray_dir 1, ray_dir 2] ∧
      (LightRay.new camera_pos ray_dir mass).step_count = 0) ∧
    (∀ (camera_pos ray_dir : Fin 3 → ℝ) (bh : KerrBlackHole),
      (KerrLightRay.new camera_pos ray_dir bh).geodesic.position =
        ![0,
          Real.sqrt (camera_pos 0 ^ 2 + camera_pos 1 ^ 2 + camera_pos 2 ^ 2),
          Real.arccos (camera_pos 2 /
            Real.sqrt (camera_pos 0 ^ 2 + camera_pos 1 ^ 2 + camera_pos 2 ^ 2)),
          atan2 (camera_pos 1) (camera_pos 0)] ∧
      (KerrLightRay.new camera_pos ray_dir bh).geodesic.momentum =
        ![1, ray_dir 0, ray_dir 1, ray_dir 2] ∧
      (KerrLightRay.new camera_pos ray_dir bh).step_count = 0) ∧
    (LightRay.new ![0, 0, 5] ![0, 0, -1] 1).geodesic.radius = 5 ∧
    (LightRay.new ![0, 0, 5] ![0, 0, -1] 1).step_count = 0 := by
  have hsq : ∀ cp : Fin 3 → ℝ, cp 0 * cp 0 + cp 1 * cp 1 + cp 2 * cp 2 =
      cp 0 ^ 2 + cp 1 ^ 2 + cp 2 ^ 2 := by
    intro cp; ring
  refine ⟨?_, ?_, ?_, rfl⟩
  · intro camera_pos ray_dir mass
    refine ⟨?_, rfl, rfl⟩
    simp only [LightRay.new, Geodesic.new, hsq]
  · intro camera_pos ray_dir bh
    refine ⟨?_, rfl, rfl⟩
    simp only [KerrLightRay.new, Geodesic.new, hsq]
  · show (LightRay.new ![0, 0, 5] ![0, 0, -1] 1).geodesic.position 1 = 5
    simp only [LightRay.new, Geodesic.new, Matrix.cons_val_one, Matrix.head_cons,
      Matrix.cons_val_two, Matrix.tail_cons, Matrix.cons_val_zero]
    norm_num
    rw [show (25 : ℝ) = 5 ^ 2 by norm_num, Real.sqrt_sq (by norm_num : (0:ℝ) ≤ 5)]

/-- C8: `outer_horizon(schwarzschild(M)) = 2M` within `1e-6` for
`M > 0`; and for every black hole constructed with mass `M > 0` and any
spin (clamped to `|a| ≤ M`), `inner_horizon ∈ [0, outer_horizon]` and
`ergosphere_radius(theta) ≥ outer_horizon` for every `theta`. -/
theorem kerr_horizon_properties :
    (∀ M : ℝ, 0 < M → ∀ bh : KerrBlackHole,
      KerrBlackHole.schwarzschild M = some bh →
      |bh.outer_horizon - 2 * M| ≤ 1e-6) ∧
    (∀ M a : ℝ, 0 < M → ∀ bh : KerrBlackHole,
      KerrBlackHole.new M a = some bh →
      0 ≤ bh.inner_horizon ∧ bh.inner_horizon ≤ bh.outer_horizon ∧
      ∀ theta : ℝ, bh.outer_horizon ≤ bh.ergosphere_radius theta) := by
  constructor
  · intro M hM bh h
    rw [KerrBlackHole.schwarzschild, KerrBlackHole.new, f32ClampChecked,
      if_pos (by linarith : (-M : ℝ) ≤ M)] at h
    simp only [Option.map_some', Option.some.injEq] at h
    rw [min_eq_right hM.le, max_eq_right (by linarith : (-M : ℝ) ≤ 0)] at h
    rw [← h]
    simp only [KerrBlackHole.outer_horizon]
    rw [mul_zero, sub_zero, Real.sqrt_mul_self hM.le,
      show M + M - 2 * M = 0 by ring, abs_zero]
    norm_num
  · intro M a hM bh h
    rw [KerrBlackHole.new, f32ClampChecked,
      if_pos (by linarith : (-M : ℝ) ≤ M)] at h
    simp only [Option.map_some', Option.some.injEq] at h
    have hspin_le : max (-M) (min M a) ≤ M :=
      max_le (by linarith) (min_le_left _ _)
    have hsq : bh.spin * bh.spin ≤ M * M := by
      rw [← h]
      have hlo : -M ≤ max (-M) (min M a) := le_max_left _ _
      have habs : |max (-M) (min M a)| ≤ M := abs_le.mpr ⟨hlo, hspin_le⟩
      calc max (-M) (min M a) * max (-M) (min M a)
          = |max (-M) (min M a)| * |max (-M) (min M a)| := by
            rw [← abs_mul, abs_mul_self]
        _ ≤ M * M := mul_le_mul habs habs (abs_nonneg _) hM.le
    have hmass : bh.mass = M := by rw [← h]
    have hsqrtM : Real.sqrt (M * M) = M := Real.sqrt_mul_self hM.le
    have hle : Real.sqrt (bh.mass * bh.mass - bh.spin * bh.spin) ≤ M := by
      rw [hmass]
      calc Real.sqrt (M * M - bh.spin * bh.spin)
          ≤ Real.sqrt (M * M) :=
            Real.sqrt_le_sqrt (by linarith [mul_self_nonneg bh.spin])
        _ = M := hsqrtM
    refine ⟨?_, ?_, ?_⟩
    · rw [KerrBlackHole.inner_horizon, hmass]
      rw [hmass] at hle
      linarith
    · rw [KerrBlackHole.inner_horizon, KerrBlackHole.outer_horizon]
      have := Real.sqrt_nonneg (bh.mass * bh.mass - bh.spin * bh.spin)
      linarith
    · intro theta
      rw [KerrBlackHole.outer_horizon, KerrBlackHole.ergosphere_radius]
      have hmono : Real.sqrt (bh.mass * bh.mass - bh.spin * bh.spin) ≤
          Real.sqrt (bh.mass * bh.mass -
            bh.spin * bh.spin * Real.cos theta ^ 2) := by
        apply Real.sqrt_le_sqrt
        have hcos : Real.cos theta ^ 2 ≤ 1 := Real.cos_sq_le_one theta
        have hss : 0 ≤ bh.spin * bh.spin := mul_self_nonneg _
        nlinarith
      linarith

/-- Witness for C8 at the unit-mass Schwarzschild black hole and, for
the second part, spin `0` with the ergosphere evaluated over all
angles. -/
theorem kerr_horizon_properties_witness :
    (0 : ℝ) < 1 ∧
    KerrBlackHole.schwarzschild 1 = some ⟨1, 0⟩ ∧
    |KerrBlackHole.outer_horizon ⟨1, 0⟩ - 2 * 1| ≤ 1e-6 ∧
    KerrBlackHole.new 1 0 = some ⟨1, 0⟩ ∧
    (0 ≤ KerrBlackHole.inner_horizon ⟨1, 0⟩ ∧
      KerrBlackHole.inner_horizon ⟨1, 0⟩ ≤ KerrBlackHole.outer_horizon ⟨1, 0⟩ ∧
      ∀ theta : ℝ,
        KerrBlackHole.outer_horizon ⟨1, 0⟩ ≤
          KerrBlackHole.ergosphere_radius ⟨1, 0⟩ theta) := by
  have hnew : KerrBlackHole.new (1 : ℝ) 0 = some ⟨1, 0⟩ := by
    rw [KerrBlackHole.new, f32ClampChecked, if_pos (by norm_num : (-1 : ℝ) ≤ 1),
      min_eq_right (by norm_num : (0 : ℝ) ≤ 1),
      max_eq_right (by norm_num : (-1 : ℝ) ≤ 0)]
    rfl
  have hsch : KerrBlackHole.schwarzschild (1 : ℝ) = some ⟨1, 0⟩ := hnew
  exact ⟨by norm_num, hsch,
    kerr_horizon_properties.1 1 (by norm_num) ⟨1, 0⟩ hsch,
    hnew,
    kerr_horizon_properties.2 1 0 (by norm_num) ⟨1, 0⟩ hnew⟩
